import Mathlib

/-!
Shallow embedding of the gilrs game-controller input engine.

Namespace `Wgi` embeds the windows_wgi backend
(`src/gilrs-core/src/platform/windows_wgi/gamepad.rs`): native event codes,
raw readings, the reading-diff producer and the device-resolution step of
`Gilrs::next_event`.

Namespace `App` embeds the front-end (`src/src/gamepad.rs`): the event
normalizer `next_event_priv`, the cached-state commit `update`, the counter,
the builder and the cached-state queries on `Gamepad`.

Machine floats (`f32`/`f64`) are embedded as `Rat`; machine integers as
`Nat`/`Int` with explicit wrapping where overflow matters.  Panics
(assertion failures / `unwrap` on `None`) are embedded as `Option` results
where a claim depends on them.
-/

namespace Wgi

/-- Kind of a native event code (`EvCodeKind` in the windows_wgi backend). -/
inductive EvCodeKind
  | Button
  | Axis
  | Switch
deriving DecidableEq

/-- Native event code: a kind plus an index unique within that kind
(`EvCode` in the windows_wgi backend). -/
structure EvCode where
  kind : EvCodeKind
  index : Nat
deriving DecidableEq

/-- `GameControllerSwitchPosition` of WGI (8 directions plus centered). -/
inductive SwitchPosition
  | Center
  | Up
  | UpRight
  | Right
  | DownRight
  | Down
  | DownLeft
  | Left
  | UpLeft
deriving DecidableEq

/-- `direction_from_switch`: decompose a switch position into (x, y)
components, each in {-1, 0, 1}.  The catch-all arm covers `Center` and any
other value, as in the source. -/
def direction_from_switch : SwitchPosition → Int × Int
  | .Up => (0, 1)
  | .Down => (0, -1)
  | .Right => (1, 0)
  | .Left => (-1, 0)
  | .UpLeft => (-1, 1)
  | .UpRight => (1, 1)
  | .DownLeft => (-1, -1)
  | .DownRight => (1, -1)
  | _ => (0, 0)

/-- `gilrs_core::EventType`: the raw hardware event stream. -/
inductive EventType
  | ButtonPressed (code : EvCode)
  | ButtonReleased (code : EvCode)
  | AxisValueChanged (value : Int) (code : EvCode)
  | Connected
  | Disconnected
deriving DecidableEq

/-- `RawGamepadReading`: a snapshot of a raw WGI controller.  `f64` axis
values are embedded as `Rat`. -/
structure RawGamepadReading where
  axes : List Rat
  buttons : List Bool
  switches : List SwitchPosition
  time : Nat
deriving DecidableEq

/-- Rust `as i32` applied to an `f64`: truncation toward zero, saturating at
the `i32` bounds. -/
def f64_as_i32 (q : Rat) : Int :=
  max (-(2 ^ 31)) (min (2 ^ 31 - 1) (if 0 ≤ q then ⌊q⌋ else ⌈q⌉))

/-- The backend's integer rescale for raw axis values:
`((value * 65535.0) - 32768.0) as i32`. -/
def rescale_raw_axis (q : Rat) : Int :=
  f64_as_i32 (q * 65535 - 32768)

/-- The axis part of `Reading::send_events_for_differences` (Raw/Raw arm):
one `AxisValueChanged` per axis index whose value differs. -/
def axis_diff_events (old new : RawGamepadReading) : List EventType :=
  (List.range new.axes.length).filterMap fun index =>
    if old.axes[index]? ≠ new.axes[index]? then
      some (.AxisValueChanged (rescale_raw_axis (new.axes.getD index 0)) ⟨.Axis, index⟩)
    else none

/-- The button part of `Reading::send_events_for_differences` (Raw/Raw arm). -/
def button_diff_events (old new : RawGamepadReading) : List EventType :=
  (List.range new.buttons.length).filterMap fun index =>
    if old.buttons[index]? ≠ new.buttons[index]? then
      some (if new.buttons.getD index false then EventType.ButtonPressed ⟨.Button, index⟩
            else EventType.ButtonReleased ⟨.Button, index⟩)
    else none

/-- The switch part of `Reading::send_events_for_differences` (Raw/Raw arm).
Note: the y-component event carries `index as i32` as its value, exactly as
in the source. -/
def switch_diff_events (old new : RawGamepadReading) : List EventType :=
  (List.range old.switches.length).flatMap fun index =>
    let od := direction_from_switch (old.switches.getD index .Center)
    let nd := direction_from_switch (new.switches.getD index .Center)
    (if od.1 ≠ nd.1 then [EventType.AxisValueChanged nd.1 ⟨.Switch, index * 2⟩] else [])
      ++ (if od.2 ≠ nd.2 then [EventType.AxisValueChanged (index : Int) ⟨.Switch, index * 2 + 1⟩]
          else [])

/-- `Reading::send_events_for_differences`, Raw/Raw arm: axis events, then
button events, then switch events, in emission order. -/
def send_events_for_differences_raw (old new : RawGamepadReading) : List EventType :=
  axis_diff_events old new ++ button_diff_events old new ++ switch_diff_events old new

/-- The backend's per-device record kept by `Gilrs` (fields of `Gamepad`
relevant to device resolution; the opaque `HSTRING` NonRoamableId is
embedded as `Nat`). -/
structure CoreGamepad where
  id : Nat
  non_roamable_id : Nat
  is_connected : Bool
deriving DecidableEq

/-- `WgiEvent`: a queued backend event still carrying its controller handle;
`nrid` is the result of `NonRoamableId()` on that handle (`none` = the OS
call failed). -/
structure WgiEvent where
  nrid : Option Nat
  event : EventType
  time : Nat
deriving DecidableEq

/-- The backend `Gilrs` context: known devices plus the inter-thread queue. -/
structure CoreGilrs where
  gamepads : List CoreGamepad
  queue : List WgiEvent
deriving DecidableEq

/-- The `position` search in `Gilrs::next_event`: first known device whose
`non_roamable_id` equals the incoming controller's id (an errored
`NonRoamableId()` call never matches). -/
def find_gamepad_idx (gps : List CoreGamepad) (nrid : Option Nat) : Option Nat :=
  gps.findIdx? fun gp =>
    match nrid with
    | some i => i == gp.non_roamable_id
    | none => false

/-- The `unwrap_or_else` arm of `Gilrs::next_event`: reuse the matching
device's index, or append a fresh `Gamepad::new(len, controller)` (which
starts connected) and use the new last index.  The source unwraps the new
controller's `NonRoamableId()`; the `getD 0` stands for that never-`none`
unwrap. -/
def resolve_gamepad (gps : List CoreGamepad) (nrid : Option Nat) : Nat × List CoreGamepad :=
  match find_gamepad_idx gps nrid with
  | some i => (i, gps)
  | none => (gps.length, gps ++ [⟨gps.length, nrid.getD 0, true⟩])

/-- The backend `Gilrs::next_event`: pull one queued event, resolve its
device id, update the connection flag, and return the id-tagged event. -/
def core_next_event (g : CoreGilrs) : Option (Nat × EventType × Nat) × CoreGilrs :=
  match g.queue with
  | [] => (none, g)
  | we :: rest =>
    let r := resolve_gamepad g.gamepads we.nrid
    let gps :=
      match we.event with
      | .Connected => r.2.set r.1 { r.2.getD r.1 ⟨0, 0, false⟩ with is_connected := true }
      | .Disconnected => r.2.set r.1 { r.2.getD r.1 ⟨0, 0, false⟩ with is_connected := false }
      | _ => r.2
    (some (r.1, we.event, we.time), ⟨gps, rest⟩)

/-- `Gilrs::last_gamepad_hint`. -/
def last_gamepad_hint (g : CoreGilrs) : Nat :=
  g.gamepads.length

end Wgi

namespace App

/-- Front-end `Code`: a wrapper around the platform's native event code. -/
abbrev Code := Wgi.EvCode

/-- Semantic buttons.  Modelled from the spec: the closed enumeration of §3
(the source's `ev.rs` is not under src/). -/
inductive Button
  | South
  | East
  | North
  | West
  | C
  | Z
  | LeftTrigger
  | LeftTrigger2
  | RightTrigger
  | RightTrigger2
  | Select
  | Start
  | Mode
  | LeftThumb
  | RightThumb
  | DPadUp
  | DPadDown
  | DPadLeft
  | DPadRight
  | Unknown
deriving DecidableEq

/-- Semantic axes.  Modelled from the spec: the closed enumeration of §3
(the source's `ev.rs` is not under src/). -/
inductive Axis
  | LeftStickX
  | LeftStickY
  | LeftZ
  | RightStickX
  | RightStickY
  | RightZ
  | DPadX
  | DPadY
  | LeftTrigger
  | RightTrigger
  | Unknown
deriving DecidableEq

/-- `AxisOrBtn`: what a native code is mapped to. -/
inductive AxisOrBtn
  | Btn (b : Button)
  | Axis (a : Axis)
deriving DecidableEq

/-- Modelled from the spec: `Button::to_nec` (in the missing `ev.rs`) maps a
semantic button to the platform's default native code, per the
`native_ev_codes` table of the windows_wgi backend; `Unknown` has none. -/
def Button.to_nec : Button → Option Code
  | .South => some ⟨.Button, 0⟩
  | .East => some ⟨.Button, 1⟩
  | .West => some ⟨.Button, 2⟩
  | .North => some ⟨.Button, 3⟩
  | .LeftTrigger => some ⟨.Button, 4⟩
  | .RightTrigger => some ⟨.Button, 5⟩
  | .Select => some ⟨.Button, 6⟩
  | .Start => some ⟨.Button, 7⟩
  | .LeftThumb => some ⟨.Button, 8⟩
  | .RightThumb => some ⟨.Button, 9⟩
  | .DPadUp => some ⟨.Button, 10⟩
  | .DPadRight => some ⟨.Button, 11⟩
  | .DPadDown => some ⟨.Button, 12⟩
  | .DPadLeft => some ⟨.Button, 13⟩
  | .Mode => some ⟨.Button, 14⟩
  | .C => some ⟨.Button, 15⟩
  | .Z => some ⟨.Button, 16⟩
  | .LeftTrigger2 => some ⟨.Button, 17⟩
  | .RightTrigger2 => some ⟨.Button, 18⟩
  | .Unknown => none

/-- Association-list lookup keyed by `Code` (embeds the `HashMap` gets of
the mapping and the cached state). -/
def assoc_get {α : Type} : List (Code × α) → Code → Option α
  | [], _ => none
  | (k, v) :: rest, c => if k = c then some v else assoc_get rest c

/-- Association-list insert-or-replace (embeds `HashMap` entry updates). -/
def assoc_set {α : Type} : List (Code × α) → Code → α → List (Code × α)
  | [], c, v => [(c, v)]
  | (k, w) :: rest, c, v =>
    if k = c then (c, v) :: rest else (k, w) :: assoc_set rest c v

/-- Modelled from the spec (§3, §4.4): per-button cached data — pressed
flag, last float value, logical counter and wall-clock time of the last
change (`ButtonData` in the missing `ev/state.rs`). -/
structure ButtonData where
  is_pressed : Bool
  value : Rat
  counter : Nat
  timestamp : Nat
deriving DecidableEq

/-- Modelled from the spec (§3, §4.4): per-axis cached data (`AxisData` in
the missing `ev/state.rs`). -/
structure AxisData where
  value : Rat
  counter : Nat
  timestamp : Nat
deriving DecidableEq

/-- Modelled from the spec (§4.4): the cached per-device state — a table
from native code to last-known data (`GamepadState` in the missing
`ev/state.rs`).  Its query interface takes only a `Code`, so it has no
access to the device's connection status. -/
structure GamepadState where
  buttons : List (Code × ButtonData)
  axes : List (Code × AxisData)
deriving DecidableEq

/-- The empty cached state (`GamepadState::new`). -/
def GamepadState.new : GamepadState := ⟨[], []⟩

/-- Modelled from the spec (§4.4): `is_pressed(code)` — `false` if never
observed. -/
def GamepadState.is_pressed (s : GamepadState) (nec : Code) : Bool :=
  ((assoc_get s.buttons nec).map ButtonData.is_pressed).getD false

/-- Modelled from the spec (§4.4): `value(code)` — `0.0` if never
observed. -/
def GamepadState.value (s : GamepadState) (nec : Code) : Rat :=
  ((assoc_get s.axes nec).map AxisData.value).getD 0

/-- Modelled from the spec (§4.4): `button_data(code)`. -/
def GamepadState.button_data (s : GamepadState) (nec : Code) : Option ButtonData :=
  assoc_get s.buttons nec

/-- Modelled from the spec (§4.4): `axis_data(code)`. -/
def GamepadState.axis_data (s : GamepadState) (nec : Code) : Option AxisData :=
  assoc_get s.axes nec

/-- Modelled from the spec (§4.4): `set_btn_pressed` — set the pressed flag
(keeping the cached float value of an existing entry) and stamp counter and
time. -/
def GamepadState.set_btn_pressed (s : GamepadState) (nec : Code) (pressed : Bool)
    (counter time : Nat) : GamepadState :=
  let old := assoc_get s.buttons nec
  let data : ButtonData :=
    { is_pressed := pressed
      value := ((old.map ButtonData.value).getD (if pressed then 1 else 0))
      counter := counter
      timestamp := time }
  { s with buttons := assoc_set s.buttons nec data }

/-- Modelled from the spec (§4.4): `set_btn_value` — set the cached float
value (keeping the pressed flag of an existing entry; a fresh entry starts
unpressed) and stamp counter and time. -/
def GamepadState.set_btn_value (s : GamepadState) (nec : Code) (value : Rat)
    (counter time : Nat) : GamepadState :=
  let old := assoc_get s.buttons nec
  let data : ButtonData :=
    { is_pressed := ((old.map ButtonData.is_pressed).getD false)
      value := value
      counter := counter
      timestamp := time }
  { s with buttons := assoc_set s.buttons nec data }

/-- Modelled from the spec (§4.4): `set_btn_repeating` — restamp counter and
time of an existing entry. -/
def GamepadState.set_btn_repeating (s : GamepadState) (nec : Code)
    (counter time : Nat) : GamepadState :=
  match assoc_get s.buttons nec with
  | none => s
  | some old =>
    { s with buttons := assoc_set s.buttons nec { old with counter := counter, timestamp := time } }

/-- Modelled from the spec (§4.4): `update_axis` — replace the cached axis
data. -/
def GamepadState.update_axis (s : GamepadState) (nec : Code) (data : AxisData) : GamepadState :=
  { s with axes := assoc_set s.axes nec data }

/-- Per-native-axis calibration (`AxisInfo` in the missing gilrs-core
`lib.rs`; the windows_wgi backend constructs its instances). -/
structure AxisInfo where
  min : Int
  max : Int
  deadzone : Option Rat
deriving DecidableEq

/-- Modelled from the spec (§3 AxisInfo): rescale a raw integer reading into
a button-style value in [0, 1] (`AxisInfo::value_btn`, missing from src/). -/
def AxisInfo.value_btn (i : AxisInfo) (val : Int) : Rat :=
  ((val : Rat) - (i.min : Rat)) / ((i.max : Rat) - (i.min : Rat))

/-- Modelled from the spec (§3 AxisInfo): rescale a raw integer reading into
an axis-style value in [-1, 1] (`AxisInfo::value_axis`, missing from
src/). -/
def AxisInfo.value_axis (i : AxisInfo) (val : Int) : Rat :=
  2 * (((val : Rat) - (i.min : Rat)) / ((i.max : Rat) - (i.min : Rat))) - 1

/-- Front-end `EventType` (`ev.rs`): the caller-visible event kinds used by
`src/src/gamepad.rs`, including the `Dropped` filter sentinel. -/
inductive EventType
  | ButtonPressed (b : Button) (code : Code)
  | ButtonRepeated (b : Button) (code : Code)
  | ButtonReleased (b : Button) (code : Code)
  | ButtonChanged (b : Button) (value : Rat) (code : Code)
  | AxisChanged (a : Axis) (value : Rat) (code : Code)
  | Connected
  | Disconnected
  | Dropped
deriving DecidableEq

/-- Front-end `Event`: id-tagged, timestamped event. -/
structure Event where
  id : Nat
  event : EventType
  time : Nat
deriving DecidableEq

/-- `Event::is_dropped`. -/
def Event.is_dropped (e : Event) : Bool :=
  e.event == EventType.Dropped

/-- `Status` of a gamepad's connection. -/
inductive Status
  | Connected
  | Disconnected
  | NotObserved
deriving DecidableEq

/-- `usize::max_value()`, the sentinel for a not-yet-assigned gamepad id. -/
def usize_max : Nat := 2 ^ 64 - 1

/-- Front-end `Gamepad`: platform data (its axis-info table), cached state,
status, current mapping and id.  `connect_mapping` is modelled from the
spec: the mapping that the mapping-database lookup plus SDL parse yields for
this device on `Connected` (database and parser are not under src/).  The
`Mapping` is embedded as its code→semantic association list. -/
structure Gamepad where
  axis_infos : List (Code × AxisInfo)
  connect_mapping : List (Code × AxisOrBtn)
  state : GamepadState
  status : Status
  mapping : List (Code × AxisOrBtn)
  id : Nat
deriving DecidableEq

/-- A `Gamepad` as constructed by `Gamepad::new`: default mapping, fresh
state, unassigned id. -/
def default_gamepad : Gamepad :=
  ⟨[], [], GamepadState.new, .NotObserved, [], usize_max⟩

/-- `Gamepad::axis_or_btn_name`: resolve a native code through the mapping. -/
def axis_or_btn_name (g : Gamepad) (nec : Code) : Option AxisOrBtn :=
  assoc_get g.mapping nec

/-- `Mapping::map_rev` on the embedded mapping: first native code mapped to
the given semantic control. -/
def map_rev (m : List (Code × AxisOrBtn)) (t : AxisOrBtn) : Option Code :=
  (m.find? fun p => p.2 == t).map Prod.fst

/-- `Gamepad::button_code`. -/
def button_code (g : Gamepad) (btn : Button) : Option Code :=
  map_rev g.mapping (.Btn btn)

/-- `Gamepad::axis_code`. -/
def axis_code (g : Gamepad) (axis : Axis) : Option Code :=
  map_rev g.mapping (.Axis axis)

/-- `Gamepad::is_pressed`: the `assert_ne!(btn, Button::Unknown)` failure is
embedded as `none`; otherwise the mapped code (falling back to the default
native code) is looked up in the cached state, defaulting to `false`. -/
def Gamepad.is_pressed (g : Gamepad) (btn : Button) : Option Bool :=
  if btn = Button.Unknown then none
  else
    some ((((button_code g btn).orElse fun _ => btn.to_nec).map fun nec =>
      g.state.is_pressed nec).getD false)

/-- `Gamepad::value`: the `assert_ne!(axis, Axis::Unknown)` failure is
embedded as `none`; otherwise the mapped code is looked up in the cached
state, defaulting to `0.0` (no default-code fallback for axes). -/
def Gamepad.value (g : Gamepad) (axis : Axis) : Option Rat :=
  if axis = Axis.Unknown then none
  else some (((axis_code g axis).map fun nec => g.state.value nec).getD 0)

/-- `Gamepad::is_connected`. -/
def Gamepad.is_connected (g : Gamepad) : Bool :=
  g.status == Status.Connected

/-- A raw event as returned by the platform layer to the front end
(`RawEvent` in `ev.rs`): id-tagged, timestamped `gilrs_core` event. -/
structure RawEvent where
  id : Nat
  event : Wgi.EventType
  time : Nat
deriving DecidableEq

/-- The front-end `Gilrs` context: the devices, the logical counter, the
synthesized-companion FIFO (`events: VecDeque<Event>`), the pending raw
platform events (the backend queue drained by `inner.next_event()`), the
default-filters flag and the axis-to-button thresholds. -/
structure Gilrs where
  gamepads : List Gamepad
  counter : Nat
  events : List Event
  raw_events : List RawEvent
  default_filters : Bool
  axis_to_btn_pressed : Rat
  axis_to_btn_released : Rat
deriving DecidableEq

/-- The default axis-info used where the source unwraps
`axis_info(nec)`; the unwrap never fails under the producer contract
(every `AxisValueChanged` code has axis info), so this default is
unreachable in the modelled scenarios. -/
def unreachable_axis_info : AxisInfo := ⟨0, 1, none⟩

/-- The raw-event match of `Gilrs::next_event_priv`: translate one raw
platform event for device `id`, mutating the device entry and pushing
companion events onto the FIFO; returns the updated context and the
resulting caller-visible event type. -/
def process_raw (g : Gilrs) (id : Nat) (rev : Wgi.EventType) (time : Nat) : Gilrs × EventType :=
  let gp := g.gamepads.getD id default_gamepad
  match rev with
  | .ButtonPressed nec =>
    match axis_or_btn_name gp nec with
    | some (.Btn b) =>
      ({ g with events := g.events ++ [⟨id, .ButtonChanged b 1 nec, time⟩] },
        .ButtonPressed b nec)
    | some (.Axis a) => (g, .AxisChanged a 1 nec)
    | none =>
      ({ g with events := g.events ++ [⟨id, .ButtonChanged .Unknown 1 nec, time⟩] },
        .ButtonPressed .Unknown nec)
  | .ButtonReleased nec =>
    match axis_or_btn_name gp nec with
    | some (.Btn b) =>
      ({ g with events := g.events ++ [⟨id, .ButtonChanged b 0 nec, time⟩] },
        .ButtonReleased b nec)
    | some (.Axis a) => (g, .AxisChanged a 0 nec)
    | none =>
      ({ g with events := g.events ++ [⟨id, .ButtonChanged .Unknown 0 nec, time⟩] },
        .ButtonReleased .Unknown nec)
  | .AxisValueChanged val nec =>
    let info := (assoc_get gp.axis_infos nec).getD unreachable_axis_info
    match axis_or_btn_name gp nec with
    | some (.Btn b) =>
      let v := info.value_btn val
      if v ≥ g.axis_to_btn_pressed ∧ gp.state.is_pressed nec = false then
        ({ g with events := g.events ++ [⟨id, .ButtonChanged b v nec, time⟩] },
          .ButtonPressed b nec)
      else if v ≤ g.axis_to_btn_released ∧ gp.state.is_pressed nec = true then
        ({ g with events := g.events ++ [⟨id, .ButtonChanged b v nec, time⟩] },
          .ButtonReleased b nec)
      else (g, .ButtonChanged b v nec)
    | some (.Axis a) => (g, .AxisChanged a (info.value_axis val) nec)
    | none => (g, .AxisChanged .Unknown (info.value_axis val) nec)
  | .Connected =>
    let gp2 :=
      { gp with
        status := .Connected
        mapping := gp.connect_mapping
        id := if gp.id = usize_max then id else gp.id }
    ({ g with gamepads := g.gamepads.set id gp2 }, .Connected)
  | .Disconnected =>
    ({ g with gamepads := g.gamepads.set id { gp with status := .Disconnected } }, .Disconnected)

/-- `Gilrs::next_event_priv`: drain the companion FIFO first; otherwise pull
one raw platform event and process it. -/
def next_event_priv (g : Gilrs) : Option Event × Gilrs :=
  match g.events with
  | e :: rest => (some e, { g with events := rest })
  | [] =>
    match g.raw_events with
    | [] => (none, g)
    | re :: raws =>
      let p := process_raw { g with raw_events := raws } re.id re.event re.time
      (some ⟨re.id, p.2, re.time⟩, p.1)

/-- `Gilrs::update`: commit an already-emitted event into the cached state;
a no-op unless the device is currently `Connected`. -/
def update (g : Gilrs) (e : Event) : Gilrs :=
  let counter := g.counter
  match g.gamepads[e.id]? with
  | none => g
  | some gp =>
    if gp.status = Status.Connected then
      let st :=
        match e.event with
        | .ButtonPressed _ nec => gp.state.set_btn_pressed nec true counter e.time
        | .ButtonReleased _ nec => gp.state.set_btn_pressed nec false counter e.time
        | .ButtonRepeated _ nec => gp.state.set_btn_repeating nec counter e.time
        | .ButtonChanged _ value nec => gp.state.set_btn_value nec value counter e.time
        | .AxisChanged _ value nec => gp.state.update_axis nec ⟨value, counter, e.time⟩
        | _ => gp.state
      { g with gamepads := g.gamepads.set e.id { gp with state := st } }
    else g

/-- The 62-bit counter maximum (`0x3FFF_FFFF_FFFF_FFFF`). -/
def counter_max : Nat := 0x3FFFFFFFFFFFFFFF

/-- `Gilrs::inc`: wrap to 0 at the 62-bit maximum, otherwise add one (u64
addition, hence the explicit 2^64 wrap). -/
def inc (g : Gilrs) : Gilrs :=
  if g.counter = counter_max then { g with counter := 0 }
  else { g with counter := (g.counter + 1) % 2 ^ 64 }

/-- `Gilrs::reset_counter`. -/
def reset_counter (g : Gilrs) : Gilrs :=
  { g with counter := 0 }

/-- A caller-paced sequence of counter operations. -/
inductive CounterOp
  | inc
  | reset
deriving DecidableEq

/-- Run a sequence of `inc()` / `reset_counter()` calls. -/
def run_counter_ops (g : Gilrs) : List CounterOp → Gilrs
  | [] => g
  | .inc :: rest => run_counter_ops (inc g) rest
  | .reset :: rest => run_counter_ops (reset_counter g) rest

/-- `GilrsBuilder`: the configuration the builder accumulates. -/
structure GilrsBuilder where
  default_filters : Bool
  axis_to_btn_pressed : Rat
  axis_to_btn_released : Rat
deriving DecidableEq

/-- `GilrsBuilder::new`: default filters on, thresholds 0.75 / 0.65. -/
def GilrsBuilder.new : GilrsBuilder :=
  ⟨true, 3 / 4, 13 / 20⟩

/-- `GilrsBuilder::set_axis_to_btn`: the three `assert!` failures are
embedded as `none`; on success the thresholds are stored. -/
def GilrsBuilder.set_axis_to_btn (b : GilrsBuilder) (pressed released : Rat) :
    Option GilrsBuilder :=
  if pressed > released ∧ (pressed ≥ 0 ∧ pressed ≤ 1) ∧ (released ≥ 0 ∧ released ≤ 1) then
    some { b with axis_to_btn_pressed := pressed, axis_to_btn_released := released }
  else none

/-- The termination measure for the `next_event` filter loop: processing a
raw event consumes it and queues at most one companion. -/
def gilrs_measure (g : Gilrs) : Nat :=
  2 * g.raw_events.length + g.events.length

/-- The usage pattern of the spec's event loop: pull up to `n` events with
`next_event_priv`, committing each emitted event via `update` before the
next pull. -/
def run_priv_with_update : Nat → Gilrs → List Event × Gilrs
  | 0, g => ([], g)
  | n + 1, g =>
    match next_event_priv g with
    | (none, g2) => ([], g2)
    | (some e, g2) =>
      let g3 := update g2 e
      let r := run_priv_with_update n g3
      (e :: r.1, r.2)

/-- Native code used in the C1 disconnect scenario. -/
def c1_nec : Code := ⟨.Button, 0⟩

/-- C1 scenario: a connected gamepad whose native code 0 is mapped to the
semantic South button, with a fresh cached state. -/
def c1_gp : Gamepad :=
  ⟨[], [], GamepadState.new, .Connected, [(c1_nec, .Btn .South)], 0⟩

/-- C1 scenario: context holding that gamepad, with a pending raw
`Disconnected` event. -/
def c1_g0 : Gilrs :=
  ⟨[c1_gp], 0, [], [⟨0, .Disconnected, 5⟩], true, 3 / 4, 13 / 20⟩

/-- C1 scenario after committing a `ButtonPressed(South)` event while the
gamepad is still connected. -/
def c1_g1 : Gilrs :=
  update c1_g0 ⟨0, .ButtonPressed .South c1_nec, 3⟩

/-- C1 scenario after the raw `Disconnected` event is processed: the status
flips to `Disconnected`, the cached state is retained. -/
def c1_g2 : Gilrs :=
  (next_event_priv c1_g1).2

set_option linter.unusedVariables false in
/-- The filter loop of `Gilrs::next_event` (the `default_filters` branch):
pull one event, run it through the composed filter chain `flt` (modelled
from the spec, §4.5: the three default filters are not under src/ and take
the event plus the `Gilrs` context), discard it if the chain marked it
dropped, and keep pulling until a non-dropped event is produced or the
stream is exhausted. -/
def next_event_filtered (flt : Event → Gilrs → Event) (g : Gilrs) : Option Event × Gilrs :=
  match h : next_event_priv g with
  | (none, g2) => (none, g2)
  | (some ev, g2) =>
    let ev2 := flt ev g2
    if ev2.is_dropped then next_event_filtered flt g2
    else (some ev2, g2)
termination_by gilrs_measure g
decreasing_by
  rcases hev : g.events with _ | ⟨e, es⟩
  · rcases hraw : g.raw_events with _ | ⟨re, raws⟩
    · simp [next_event_priv, hev, hraw] at h
    · simp only [next_event_priv, hev, hraw] at h
      injection h with h1 h2
      have hp : ((process_raw { g with events := ([] : List Event), raw_events := raws }
              re.id re.event re.time).1.raw_events = raws)
          ∧ (process_raw { g with events := ([] : List Event), raw_events := raws }
              re.id re.event re.time).1.events.length ≤ 1 := by
        cases re.event <;> simp only [process_raw] <;> (repeat' split) <;> simp
      rw [← h2]
      simp only [gilrs_measure, hp.1, hraw, hev, List.length_cons, List.length_nil]
      omega
  · simp only [next_event_priv, hev] at h
    injection h with h1 h2
    rw [← h2]
    simp only [gilrs_measure, hev, List.length_cons]
    omega

/-- `Gilrs::next_event`: with default filters enabled run the filter loop,
otherwise return the raw normalizer result. -/
def next_event (flt : Event → Gilrs → Event) (g : Gilrs) : Option Event × Gilrs :=
  if g.default_filters then next_event_filtered flt g else next_event_priv g

end App

/-! ## Theorems -/

/-- C2: the direction table decomposes every switch position into components
in {-1, 0, 1}, but on a Y-component change the producer emits the switch
index, not the new Y direction component, as the event value: with switch 0
going Up → Down the Y event carries value 0 while the new Y component is
-1.  This contradicts the producer's intent (the X branch emits the new X
component). -/
theorem c2_switch_y_bug :
    Wgi.send_events_for_differences_raw ⟨[], [], [.Up], 0⟩ ⟨[], [], [.Down], 1⟩
        = [Wgi.EventType.AxisValueChanged 0 ⟨.Switch, 1⟩]
      ∧ (Wgi.direction_from_switch .Down).2 = -1
      ∧ (∀ s, (Wgi.direction_from_switch s).1 ∈ ([-1, 0, 1] : List Int)
          ∧ (Wgi.direction_from_switch s).2 ∈ ([-1, 0, 1] : List Int))
      ∧ ((0 : Int) ≠ -1) := by
  refine ⟨by decide, by decide, ?_, by decide⟩
  intro s
  cases s <;> decide

/-- C1: counterexample to the cached-state isolation invariant.  A button
is pressed and committed while the device is connected; the raw
`Disconnected` event then flips the status (retaining the state); afterwards
`Gamepad::is_pressed` still answers `true` — the quoted invariant demands
`false` — while mutation through `update()` is indeed a no-op. -/
theorem c1_stale_pressed_after_disconnect :
    ((App.c1_g2.gamepads.getD 0 App.default_gamepad).status = App.Status.Disconnected)
      ∧ (App.Gamepad.is_pressed (App.c1_g2.gamepads.getD 0 App.default_gamepad) App.Button.South
          = some true)
      ∧ (App.update App.c1_g2 ⟨0, .ButtonReleased .South App.c1_nec, 6⟩ = App.c1_g2) := by
  refine ⟨rfl, rfl, rfl⟩

/-- Helper for C5: `inc()` and `reset_counter()` preserve the 62-bit bound
on the counter. -/
theorem run_counter_ops_le (ops : List App.CounterOp) :
    ∀ g : App.Gilrs, g.counter ≤ App.counter_max →
      (App.run_counter_ops g ops).counter ≤ App.counter_max := by
  induction ops with
  | nil => intro g hg; simpa [App.run_counter_ops] using hg
  | cons op rest ih =>
    intro g hg
    cases op with
    | inc =>
      refine ih _ ?_
      simp only [App.inc, App.counter_max] at *
      split
      · simp
      · simp
        omega
    | reset =>
      refine ih _ ?_
      simp [App.reset_counter, App.counter_max]

/-- C5: the counter is 62-bit monotonic-with-wrap: incrementing from the
maximum yields 0, incrementing from any smaller value adds one, and any
sequence of `inc()` / `reset_counter()` calls starting from 0 keeps the
counter at most the 62-bit maximum. -/
theorem c5_counter_wrap :
    (∀ g : App.Gilrs, g.counter = App.counter_max → (App.inc g).counter = 0)
      ∧ (∀ g : App.Gilrs, g.counter < App.counter_max → (App.inc g).counter = g.counter + 1)
      ∧ (∀ (g : App.Gilrs) (ops : List App.CounterOp), g.counter = 0 →
          (App.run_counter_ops g ops).counter ≤ App.counter_max) := by
  refine ⟨?_, ?_, ?_⟩
  · intro g hg
    simp [App.inc, hg]
  · intro g hg
    have hm : App.counter_max = 4611686018427387903 := by norm_num [App.counter_max]
    have h2 : ¬ g.counter = App.counter_max := Nat.ne_of_lt hg
    rw [hm] at hg
    simp [App.inc, h2]
    omega
  · intro g ops hg
    exact run_counter_ops_le ops g (by simp [hg, App.counter_max])

/-- C5 witness: concrete wrap at the maximum, concrete increment below it,
and a concrete operation sequence staying within the bound. -/
theorem c5_counter_wrap_witness :
    (App.inc ⟨[], App.counter_max, [], [], true, 3 / 4, 13 / 20⟩).counter = 0
      ∧ (App.inc ⟨[], 5, [], [], true, 3 / 4, 13 / 20⟩).counter = 6
      ∧ (App.run_counter_ops ⟨[], 0, [], [], true, 3 / 4, 13 / 20⟩
          [.inc, .inc, .reset, .inc]).counter ≤ App.counter_max :=
  ⟨c5_counter_wrap.1 _ rfl,
   c5_counter_wrap.2.1 _ (by norm_num [App.counter_max]),
   c5_counter_wrap.2.2 _ _ rfl⟩

/-- C9: `set_axis_to_btn` is rejected (assertion failure, embedded as
`none`) exactly when `pressed ≤ released` or either value is outside
[0, 1]; every pair with `pressed > released` and both values in [0, 1] is
accepted and stored verbatim; the defaults are 0.75 and 0.65. -/
theorem c9_thresholds :
    (∀ (b : App.GilrsBuilder) (p r : Rat),
        (p ≤ r ∨ p < 0 ∨ 1 < p ∨ r < 0 ∨ 1 < r) → b.set_axis_to_btn p r = none)
      ∧ (∀ (b : App.GilrsBuilder) (p r : Rat),
          r < p → 0 ≤ p → p ≤ 1 → 0 ≤ r → r ≤ 1 →
          b.set_axis_to_btn p r
            = some { b with axis_to_btn_pressed := p, axis_to_btn_released := r })
      ∧ App.GilrsBuilder.new.axis_to_btn_pressed = 3 / 4
      ∧ App.GilrsBuilder.new.axis_to_btn_released = 13 / 20 := by
  refine ⟨?_, ?_, rfl, rfl⟩
  · intro b p r h
    rw [App.GilrsBuilder.set_axis_to_btn, if_neg]
    rintro ⟨h1, ⟨h2, h3⟩, h4, h5⟩
    rcases h with h | h | h | h | h <;> linarith
  · intro b p r h1 h2 h3 h4 h5
    rw [App.GilrsBuilder.set_axis_to_btn, if_pos ⟨h1, ⟨h2, h3⟩, h4, h5⟩]

/-- C9 witness: a rejected equal pair and an accepted ordered pair at
concrete values. -/
theorem c9_thresholds_witness :
    App.GilrsBuilder.new.set_axis_to_btn (1 / 2) (1 / 2) = none
      ∧ App.GilrsBuilder.new.set_axis_to_btn (9 / 10) (1 / 10)
          = some ⟨true, 9 / 10, 1 / 10⟩ :=
  ⟨c9_thresholds.1 _ _ _ (Or.inl (by norm_num)),
   c9_thresholds.2.1 _ _ _ (by norm_num) (by norm_num) (by norm_num) (by norm_num)
     (by norm_num)⟩

/-- C10: querying `is_pressed` with `Button::Unknown` or `value` with
`Axis::Unknown` trips the assertion (embedded as `none`); every other
button/axis query returns a value, with `false` when neither the mapping
nor the default native code resolves to recorded state, and `0.0` when no
native code is mapped to the axis. -/
theorem c10_unknown_queries :
    (∀ g : App.Gamepad, g.is_pressed App.Button.Unknown = none)
      ∧ (∀ g : App.Gamepad, g.value App.Axis.Unknown = none)
      ∧ (∀ (g : App.Gamepad) (b : App.Button), b ≠ App.Button.Unknown →
          (g.is_pressed b).isSome = true)
      ∧ (∀ (g : App.Gamepad) (b : App.Button), b ≠ App.Button.Unknown →
          App.button_code g b = none →
          (∀ nec, App.Button.to_nec b = some nec → App.assoc_get g.state.buttons nec = none) →
          g.is_pressed b = some false)
      ∧ (∀ (g : App.Gamepad) (a : App.Axis), a ≠ App.Axis.Unknown →
          (g.value a).isSome = true)
      ∧ (∀ (g : App.Gamepad) (a : App.Axis), a ≠ App.Axis.Unknown →
          App.axis_code g a = none → g.value a = some 0) := by
  refine ⟨?_, ?_, ?_, ?_, ?_, ?_⟩
  · intro g; simp [App.Gamepad.is_pressed]
  · intro g; simp [App.Gamepad.value]
  · intro g b hb; simp [App.Gamepad.is_pressed, hb]
  · intro g b hb hbc hst
    rcases hto : b.to_nec with _ | nec
    · simp [App.Gamepad.is_pressed, hb, hbc, hto, Option.orElse]
    · have := hst nec hto
      simp [App.Gamepad.is_pressed, hb, hbc, hto, Option.orElse,
        App.GamepadState.is_pressed, this]
  · intro g a ha; simp [App.Gamepad.value, ha]
  · intro g a ha hac; simp [App.Gamepad.value, ha, hac]

/-- C10 witness: on a freshly constructed gamepad, `Unknown` queries trip
the assertion and `South` / `LeftStickX` queries return the zero values. -/
theorem c10_unknown_queries_witness :
    App.Gamepad.is_pressed App.default_gamepad App.Button.Unknown = none
      ∧ App.Gamepad.value App.default_gamepad App.Axis.Unknown = none
      ∧ (App.Gamepad.is_pressed App.default_gamepad App.Button.South).isSome = true
      ∧ App.Gamepad.is_pressed App.default_gamepad App.Button.South = some false
      ∧ (App.Gamepad.value App.default_gamepad App.Axis.LeftStickX).isSome = true
      ∧ App.Gamepad.value App.default_gamepad App.Axis.LeftStickX = some 0 :=
  ⟨c10_unknown_queries.1 _,
   c10_unknown_queries.2.1 _,
   c10_unknown_queries.2.2.1 _ _ (by decide),
   c10_unknown_queries.2.2.2.1 _ _ (by decide) rfl (fun nec _ => rfl),
   c10_unknown_queries.2.2.2.2.1 _ _ (by decide),
   c10_unknown_queries.2.2.2.2.2 _ _ (by decide) rfl⟩

/-- C4: a raw `ButtonPressed` on a code mapped to a semantic button yields
exactly the specific `ButtonPressed(b, c)` event, queues exactly one
companion `ButtonChanged(b, 1.0, c)`, and the very next pull returns that
companion before any remaining raw event (of this or any other device) is
touched. -/
theorem c4_companion_order (g : App.Gilrs) (gp : App.Gamepad) (id : Nat) (nec : App.Code)
    (b : App.Button) (rest : List App.RawEvent) (t : Nat)
    (hev : g.events = [])
    (hraw : g.raw_events = ⟨id, .ButtonPressed nec, t⟩ :: rest)
    (hgp : g.gamepads[id]? = some gp)
    (hmap : App.assoc_get gp.mapping nec = some (.Btn b)) :
    (App.next_event_priv g).1 = some ⟨id, .ButtonPressed b nec, t⟩
      ∧ (App.next_event_priv g).2.events = [⟨id, .ButtonChanged b 1 nec, t⟩]
      ∧ (App.next_event_priv g).2.raw_events = rest
      ∧ (App.next_event_priv (App.next_event_priv g).2).1
          = some ⟨id, .ButtonChanged b 1 nec, t⟩
      ∧ (App.next_event_priv (App.next_event_priv g).2).2.events = []
      ∧ (App.next_event_priv (App.next_event_priv g).2).2.raw_events = rest := by
  simp [App.next_event_priv, hev, hraw, App.process_raw, App.axis_or_btn_name, hgp, hmap]

/-- C4 witness: the two successive pulls on a concrete context with one
mapped raw press (and a further pending raw event of another device). -/
theorem c4_companion_order_witness :
    (App.next_event_priv
        ⟨[⟨[], [], App.GamepadState.new, .Connected, [(⟨.Button, 2⟩, .Btn .East)], 0⟩],
          0, [], [⟨0, .ButtonPressed ⟨.Button, 2⟩, 7⟩, ⟨1, .Disconnected, 8⟩],
          true, 3 / 4, 13 / 20⟩).1
      = some ⟨0, .ButtonPressed .East ⟨.Button, 2⟩, 7⟩
      ∧ (App.next_event_priv
          (App.next_event_priv
            ⟨[⟨[], [], App.GamepadState.new, .Connected, [(⟨.Button, 2⟩, .Btn .East)], 0⟩],
              0, [], [⟨0, .ButtonPressed ⟨.Button, 2⟩, 7⟩, ⟨1, .Disconnected, 8⟩],
              true, 3 / 4, 13 / 20⟩).2).1
        = some ⟨0, .ButtonChanged .East 1 ⟨.Button, 2⟩, 7⟩ := by
  have h := c4_companion_order
    ⟨[⟨[], [], App.GamepadState.new, .Connected, [(⟨.Button, 2⟩, .Btn .East)], 0⟩],
      0, [], [⟨0, .ButtonPressed ⟨.Button, 2⟩, 7⟩, ⟨1, .Disconnected, 8⟩],
      true, 3 / 4, 13 / 20⟩
    ⟨[], [], App.GamepadState.new, .Connected, [(⟨.Button, 2⟩, .Btn .East)], 0⟩
    0 ⟨.Button, 2⟩ .East [⟨1, .Disconnected, 8⟩] 7 rfl rfl rfl (by decide)
  exact ⟨h.1, h.2.2.2.1⟩

/-- Helper for C7: a `filterMap` over `range n` whose function yields
`some` at exactly one index below `n` produces that single element. -/
theorem filterMap_range_eq_single {α : Type} (g : Nat → Option α) (n k : Nat) (a : α)
    (hk : k < n) (ha : g k = some a) (hother : ∀ i, i ≠ k → g i = none) :
    (List.range n).filterMap g = [a] := by
  induction n with
  | zero => omega
  | succ n ih =>
    rw [List.range_succ, List.filterMap_append]
    rcases Nat.lt_succ_iff_lt_or_eq.mp hk with h | h
    · rw [ih h]
      simp [hother n (by omega)]
    · subst h
      have h1 : (List.range k).filterMap g = [] := by
        rw [List.filterMap_eq_nil_iff]
        intro i hi
        exact hother i (by simp at hi; omega)
      simp [h1, ha]

/-- C7: two raw reading snapshots that differ only in the axis value at
index 3 produce exactly one event — an `AxisValueChanged` on axis index 3 —
and, in general, an axis-kind `AxisValueChanged` is emitted only for axis
indices whose value differs between the snapshots. -/
theorem c7_reading_diff (old new : Wgi.RawGamepadReading)
    (hlen : old.axes.length = new.axes.length)
    (h3 : old.axes[3]? ≠ new.axes[3]?)
    (hother : ∀ i, i ≠ 3 → old.axes[i]? = new.axes[i]?)
    (hbtn : old.buttons = new.buttons)
    (hsw : old.switches = new.switches) :
    Wgi.send_events_for_differences_raw old new
        = [Wgi.EventType.AxisValueChanged (Wgi.rescale_raw_axis (new.axes.getD 3 0))
            ⟨.Axis, 3⟩]
      ∧ ∀ (o n : Wgi.RawGamepadReading) (i : Nat) (v : Int),
          Wgi.EventType.AxisValueChanged v ⟨Wgi.EvCodeKind.Axis, i⟩ ∈
            Wgi.send_events_for_differences_raw o n →
          o.axes[i]? ≠ n.axes[i]? := by
  constructor
  · have hlt : 3 < new.axes.length := by
      by_contra hge
      have e1 : new.axes[3]? = none := by
        rw [List.getElem?_eq_none]
        omega
      have e2 : old.axes[3]? = none := by
        rw [List.getElem?_eq_none]
        omega
      rw [e1, e2] at h3
      exact h3 rfl
    have haxis : Wgi.axis_diff_events old new
        = [Wgi.EventType.AxisValueChanged (Wgi.rescale_raw_axis (new.axes.getD 3 0))
            ⟨.Axis, 3⟩] := by
      apply filterMap_range_eq_single _ _ 3 _ hlt
      · simp [h3]
      · intro i hi
        simp [hother i hi]
    have hbtns : Wgi.button_diff_events old new = [] := by
      rw [Wgi.button_diff_events, List.filterMap_eq_nil_iff]
      intro i _
      simp [hbtn]
    have hsws : Wgi.switch_diff_events old new = [] := by
      rw [Wgi.switch_diff_events, List.flatMap_eq_nil_iff]
      intro i _
      simp [hsw]
    rw [Wgi.send_events_for_differences_raw, haxis, hbtns, hsws]
    simp
  · intro o n i v hmem
    rw [Wgi.send_events_for_differences_raw] at hmem
    rcases List.mem_append.mp hmem with hmem | hmem2
    rcases List.mem_append.mp hmem with hmem | hmem
    · rw [Wgi.axis_diff_events] at hmem
      obtain ⟨j, _, hj⟩ := List.mem_filterMap.mp hmem
      by_cases hd : o.axes[j]? ≠ n.axes[j]?
      · rw [if_pos hd] at hj
        obtain ⟨-, hji⟩ := Wgi.EventType.AxisValueChanged.inj (Option.some.inj hj)
        obtain ⟨-, hji⟩ := Wgi.EvCode.mk.inj hji
        rwa [← hji]
      · rw [if_neg hd] at hj
        exact absurd hj (by simp)
    · rw [Wgi.button_diff_events] at hmem
      obtain ⟨j, _, hj⟩ := List.mem_filterMap.mp hmem
      by_cases hd : o.buttons[j]? ≠ n.buttons[j]?
      · rw [if_pos hd] at hj
        split at hj
        · exact absurd hj (by simp)
        · exact absurd hj (by simp)
      · rw [if_neg hd] at hj
        exact absurd hj (by simp)
    · rw [Wgi.switch_diff_events] at hmem2
      obtain ⟨j, _, hj⟩ := List.mem_flatMap.mp hmem2
      simp only [] at hj
      rcases List.mem_append.mp hj with hx | hy
      · by_cases hc : (Wgi.direction_from_switch (o.switches.getD j .Center)).1
            ≠ (Wgi.direction_from_switch (n.switches.getD j .Center)).1
        · rw [if_pos hc] at hx
          simp at hx
        · rw [if_neg hc] at hx
          exact absurd hx (by simp)
      · by_cases hc : (Wgi.direction_from_switch (o.switches.getD j .Center)).2
            ≠ (Wgi.direction_from_switch (n.switches.getD j .Center)).2
        · rw [if_pos hc] at hy
          simp at hy
        · rw [if_neg hc] at hy
          exact absurd hy (by simp)

/-- C7 witness: concrete snapshots differing only at axis index 3. -/
theorem c7_reading_diff_witness :
    Wgi.send_events_for_differences_raw
        ⟨[0, 0, 0, 0], [true], [.Up], 0⟩ ⟨[0, 0, 0, 1], [true], [.Up], 1⟩
      = [Wgi.EventType.AxisValueChanged
          (Wgi.rescale_raw_axis ((([0, 0, 0, 1] : List Rat)).getD 3 0)) ⟨.Axis, 3⟩] :=
  (c7_reading_diff ⟨[0, 0, 0, 0], [true], [.Up], 0⟩ ⟨[0, 0, 0, 1], [true], [.Up], 1⟩
    rfl (by decide)
    (fun i hi => by
      match i with
      | 0 => rfl
      | 1 => rfl
      | 2 => rfl
      | 3 => exact absurd rfl hi
      | n + 4 => rfl)
    rfl rfl).1

/-- Helper for C6: flipping the connection flag of one entry never changes
any entry's identity (integer id field and platform-stable id). -/
theorem set_conn_keeps_identity (l : List Wgi.CoreGamepad) (k : Nat) (c : Bool) (i : Nat) :
    ((l.set k { l.getD k ⟨0, 0, false⟩ with is_connected := c })[i]?).map
        (fun gp => (gp.id, gp.non_roamable_id))
      = (l[i]?).map fun gp => (gp.id, gp.non_roamable_id) := by
  rw [List.getElem?_set]
  split
  next hik =>
    subst hik
    split
    next hk =>
      rw [List.getElem?_eq_getElem hk]
      simp [List.getD_eq_getElem?_getD, List.getElem?_eq_getElem hk]
    next hk =>
      rw [List.getElem?_eq_none (by omega)]
  next => rfl

/-- C6: the backend resolves every incoming event by matching the
platform-stable id against the known device list.  A match reuses that
device's index and leaves the list length unchanged; no match appends a new
device and attributes the event to the next integer id (the previous list
length).  In both cases every pre-existing index keeps its identity — ids
are never reused, reassigned or compacted. -/
theorem c6_device_identity (g : Wgi.CoreGilrs) (we : Wgi.WgiEvent) (rest : List Wgi.WgiEvent)
    (hq : g.queue = we :: rest) :
    (∀ i, i < g.gamepads.length →
        ((Wgi.core_next_event g).2.gamepads[i]?).map (fun gp => (gp.id, gp.non_roamable_id))
          = (g.gamepads[i]?).map fun gp => (gp.id, gp.non_roamable_id))
      ∧ g.gamepads.length ≤ (Wgi.core_next_event g).2.gamepads.length
      ∧ (∀ k, Wgi.find_gamepad_idx g.gamepads we.nrid = some k →
          (Wgi.core_next_event g).1 = some (k, we.event, we.time)
            ∧ (Wgi.core_next_event g).2.gamepads.length = g.gamepads.length)
      ∧ (Wgi.find_gamepad_idx g.gamepads we.nrid = none →
          (Wgi.core_next_event g).1 = some (g.gamepads.length, we.event, we.time)
            ∧ (Wgi.core_next_event g).2.gamepads.length = g.gamepads.length + 1
            ∧ ((Wgi.core_next_event g).2.gamepads[g.gamepads.length]?).map
                (fun gp => gp.non_roamable_id) = some (we.nrid.getD 0)) := by
  have hfst : (Wgi.core_next_event g).1
      = some ((Wgi.resolve_gamepad g.gamepads we.nrid).1, we.event, we.time) := by
    rcases we with ⟨nrid, ev, time⟩
    cases ev <;> simp [Wgi.core_next_event, hq]
  have h2g : ∀ i : Nat, ((Wgi.core_next_event g).2.gamepads[i]?).map
        (fun gp : Wgi.CoreGamepad => (gp.id, gp.non_roamable_id))
      = ((Prod.snd (Wgi.resolve_gamepad g.gamepads we.nrid))[i]?).map
        fun gp : Wgi.CoreGamepad => (gp.id, gp.non_roamable_id) := by
    intro i
    rcases we with ⟨nrid, ev, time⟩
    cases ev <;> simp only [Wgi.core_next_event, hq] <;>
      first
        | rfl
        | exact set_conn_keeps_identity _ _ _ i
  have h2len : (Wgi.core_next_event g).2.gamepads.length
      = (Wgi.resolve_gamepad g.gamepads we.nrid).2.length := by
    rcases we with ⟨nrid, ev, time⟩
    cases ev <;> simp [Wgi.core_next_event, hq]
  rcases hfind : Wgi.find_gamepad_idx g.gamepads we.nrid with _ | k
  · have hres : Wgi.resolve_gamepad g.gamepads we.nrid
        = (g.gamepads.length, g.gamepads ++ [⟨g.gamepads.length, we.nrid.getD 0, true⟩]) := by
      simp [Wgi.resolve_gamepad, hfind]
    refine ⟨?_, ?_, ?_, ?_⟩
    · intro i hi
      rw [h2g i, hres, List.getElem?_append_left hi]
    · rw [h2len, hres]
      simp
    · intro k hk
      simp at hk
    · intro _
      refine ⟨by rw [hfst, hres], by rw [h2len, hres]; simp, ?_⟩
      have hlast : (Prod.snd (Wgi.resolve_gamepad g.gamepads we.nrid))[g.gamepads.length]?
          = some ⟨g.gamepads.length, we.nrid.getD 0, true⟩ := by
        rw [hres]
        rw [List.getElem?_append_right (Nat.le_refl _)]
        simp
      have hpair := h2g g.gamepads.length
      rw [hlast] at hpair
      obtain ⟨gp, hgp, hpf⟩ := Option.map_eq_some'.mp hpair
      rw [hgp]
      have : gp.non_roamable_id = we.nrid.getD 0 := congrArg Prod.snd hpf
      simp [this]
  · have hres : Wgi.resolve_gamepad g.gamepads we.nrid = (k, g.gamepads) := by
      simp [Wgi.resolve_gamepad, hfind]
    refine ⟨?_, ?_, ?_, ?_⟩
    · intro i _
      rw [h2g i, hres]
    · rw [h2len, hres]
    · intro j hj
      cases hj
      exact ⟨by rw [hfst, hres], by rw [h2len, hres]⟩
    · intro hn
      simp at hn

/-- C6 witness: a queued event whose platform id matches no known device is
appended with the next integer id, preserving the existing device. -/
theorem c6_device_identity_witness :
    ((Wgi.core_next_event ⟨[⟨0, 7, true⟩], [⟨some 9, .Connected, 4⟩]⟩).2.gamepads[0]?).map
        (fun gp => (gp.id, gp.non_roamable_id)) = some (0, 7)
      ∧ (Wgi.core_next_event ⟨[⟨0, 7, true⟩], [⟨some 9, .Connected, 4⟩]⟩).1
          = some (1, .Connected, 4)
      ∧ (Wgi.core_next_event ⟨[⟨0, 7, true⟩], [⟨some 9, .Connected, 4⟩]⟩).2.gamepads.length
          = 2 := by
  have h := c6_device_identity ⟨[⟨0, 7, true⟩], [⟨some 9, .Connected, 4⟩]⟩
    ⟨some 9, .Connected, 4⟩ [] rfl
  obtain ⟨h1, -, -, h4⟩ := h
  obtain ⟨h41, h42, -⟩ := h4 (by decide)
  exact ⟨by rw [h1 0 (by decide)]; rfl, h41, h42⟩

/-- C3: axis-to-button hysteresis at the default thresholds 0.75 / 0.65.
For any native code mapped to a semantic button, the rescaled value
sequence 0.0 → 0.8 → 0.7 → 0.6 (each emitted event committed via `update`
before the next pull) yields: `ButtonChanged 0.0`; a `ButtonPressed` edge at
0.8 plus its queued `ButtonChanged 0.8`; only `ButtonChanged 0.7` at 0.7;
and a `ButtonReleased` edge at 0.6 plus its queued `ButtonChanged 0.6`. -/
theorem c3_hysteresis (b : App.Button) (nec : App.Code) (info : App.AxisInfo)
    (v0 v1 v2 v3 : Int) (t : Nat) (gp : App.Gamepad) (g0 : App.Gilrs)
    (h0 : info.value_btn v0 = 0) (h1 : info.value_btn v1 = 4 / 5)
    (h2 : info.value_btn v2 = 7 / 10) (h3 : info.value_btn v3 = 3 / 5)
    (hgp : gp = ⟨[(nec, info)], [], App.GamepadState.new, .Connected, [(nec, .Btn b)], 0⟩)
    (hg0 : g0 = ⟨[gp], 0, [],
        [⟨0, .AxisValueChanged v0 nec, t⟩, ⟨0, .AxisValueChanged v1 nec, t⟩,
         ⟨0, .AxisValueChanged v2 nec, t⟩, ⟨0, .AxisValueChanged v3 nec, t⟩],
        true, 3 / 4, 13 / 20⟩) :
    (App.run_priv_with_update 6 g0).1 =
      [⟨0, .ButtonChanged b 0 nec, t⟩,
       ⟨0, .ButtonPressed b nec, t⟩,
       ⟨0, .ButtonChanged b (4 / 5) nec, t⟩,
       ⟨0, .ButtonChanged b (7 / 10) nec, t⟩,
       ⟨0, .ButtonReleased b nec, t⟩,
       ⟨0, .ButtonChanged b (3 / 5) nec, t⟩] := by
  subst hgp hg0
  norm_num [App.run_priv_with_update, App.next_event_priv, App.process_raw, App.update,
    App.axis_or_btn_name, App.assoc_get, App.assoc_set, App.GamepadState.new,
    App.GamepadState.is_pressed, App.GamepadState.set_btn_pressed,
    App.GamepadState.set_btn_value, App.unreachable_axis_info, h0, h1, h2, h3]

/-- C3 witness: concrete axis info [0, 10] with raw values 0, 8, 7, 6
rescaling to 0.0, 0.8, 0.7, 0.6. -/
theorem c3_hysteresis_witness :
    (App.run_priv_with_update 6
        ⟨[⟨[(⟨.Axis, 0⟩, ⟨0, 10, none⟩)], [], App.GamepadState.new, .Connected,
            [(⟨.Axis, 0⟩, .Btn .South)], 0⟩], 0, [],
          [⟨0, .AxisValueChanged 0 ⟨.Axis, 0⟩, 9⟩, ⟨0, .AxisValueChanged 8 ⟨.Axis, 0⟩, 9⟩,
           ⟨0, .AxisValueChanged 7 ⟨.Axis, 0⟩, 9⟩, ⟨0, .AxisValueChanged 6 ⟨.Axis, 0⟩, 9⟩],
          true, 3 / 4, 13 / 20⟩).1 =
      [⟨0, .ButtonChanged .South 0 ⟨.Axis, 0⟩, 9⟩,
       ⟨0, .ButtonPressed .South ⟨.Axis, 0⟩, 9⟩,
       ⟨0, .ButtonChanged .South (4 / 5) ⟨.Axis, 0⟩, 9⟩,
       ⟨0, .ButtonChanged .South (7 / 10) ⟨.Axis, 0⟩, 9⟩,
       ⟨0, .ButtonReleased .South ⟨.Axis, 0⟩, 9⟩,
       ⟨0, .ButtonChanged .South (3 / 5) ⟨.Axis, 0⟩, 9⟩] :=
  c3_hysteresis .South ⟨.Axis, 0⟩ ⟨0, 10, none⟩ 0 8 7 6 9 _ _
    (by norm_num [App.AxisInfo.value_btn])
    (by norm_num [App.AxisInfo.value_btn])
    (by norm_num [App.AxisInfo.value_btn])
    (by norm_num [App.AxisInfo.value_btn])
    rfl rfl

/-- Helper for C8: whenever `next_event_priv` yields an event it has
consumed a companion or a raw event, so the loop measure strictly drops. -/
theorem next_event_priv_measure_lt (g : App.Gilrs) (ev : App.Event) (g2 : App.Gilrs)
    (h : App.next_event_priv g = (some ev, g2)) :
    App.gilrs_measure g2 < App.gilrs_measure g := by
  rcases hev : g.events with _ | ⟨e, es⟩
  · rcases hraw : g.raw_events with _ | ⟨re, raws⟩
    · simp [App.next_event_priv, hev, hraw] at h
    · simp only [App.next_event_priv, hev, hraw] at h
      injection h with h1 h2
      have hp : ((App.process_raw { g with events := ([] : List App.Event), raw_events := raws }
              re.id re.event re.time).1.raw_events = raws)
          ∧ (App.process_raw { g with events := ([] : List App.Event), raw_events := raws }
              re.id re.event re.time).1.events.length ≤ 1 := by
        cases re.event <;> simp only [App.process_raw] <;> (repeat' split) <;> simp
      rw [← h2]
      simp only [App.gilrs_measure, hp.1, hraw, hev, List.length_cons, List.length_nil]
      omega
  · simp only [App.next_event_priv, hev] at h
    injection h with h1 h2
    rw [← h2]
    simp only [App.gilrs_measure, hev, List.length_cons]
    omega

/-- Helper for C8: the filter loop never returns a dropped event. -/
theorem next_event_filtered_not_dropped (flt : App.Event → App.Gilrs → App.Event) :
    ∀ (n : Nat) (g : App.Gilrs), App.gilrs_measure g = n →
      ∀ (e : App.Event) (g2 : App.Gilrs),
        App.next_event_filtered flt g = (some e, g2) → e.is_dropped = false := by
  intro n
  induction n using Nat.strong_induction_on with
  | _ n ih =>
    intro g hg e g2 hcall
    rcases hpriv : App.next_event_priv g with ⟨o, g3⟩
    rcases o with _ | ev
    · have heq : App.next_event_filtered flt g = (none, g3) := by
        rw [App.next_event_filtered]
        split
        next g2x h1 =>
          rw [hpriv] at h1
          injection h1 with ha hb
          rw [← hb]
        next evx g2x h1 =>
          rw [hpriv] at h1
          simp at h1
      rw [heq] at hcall
      simp at hcall
    · by_cases hdrop : (flt ev g3).is_dropped = true
      · have heq : App.next_event_filtered flt g = App.next_event_filtered flt g3 := by
          rw [App.next_event_filtered]
          split
          next g2x h1 =>
            rw [hpriv] at h1
            simp at h1
          next evx g2x h1 =>
            rw [hpriv] at h1
            injection h1 with ha hb
            injection ha with ha2
            rw [← ha2, ← hb, if_pos hdrop]
        rw [heq] at hcall
        exact ih (App.gilrs_measure g3)
          (hg ▸ next_event_priv_measure_lt g ev g3 hpriv) g3 rfl e g2 hcall
      · have heq : App.next_event_filtered flt g = (some (flt ev g3), g3) := by
          rw [App.next_event_filtered]
          split
          next g2x h1 =>
            rw [hpriv] at h1
            simp at h1
          next evx g2x h1 =>
            rw [hpriv] at h1
            injection h1 with ha hb
            injection ha with ha2
            rw [← ha2, ← hb, if_neg hdrop]
        rw [heq] at hcall
        simp only [Prod.mk.injEq, Option.some.injEq] at hcall
        obtain ⟨he, -⟩ := hcall
        rw [← he]
        cases hb : (flt ev g3).is_dropped
        · rfl
        · exact absurd hb hdrop

/-- C8: with default filters enabled, `next_event` never returns an event
the filter chain marked as dropped — the loop keeps pulling and filtering,
discarding every dropped event — and once the companion queue and the raw
stream are both exhausted it returns `none` with the context unchanged. -/
theorem c8_no_dropped (flt : App.Event → App.Gilrs → App.Event) (g : App.Gilrs)
    (hdf : g.default_filters = true) :
    (∀ (e : App.Event) (g2 : App.Gilrs),
        App.next_event flt g = (some e, g2) → e.is_dropped = false)
      ∧ (g.events = [] → g.raw_events = [] → App.next_event flt g = (none, g)) := by
  constructor
  · intro e g2 hcall
    rw [App.next_event, if_pos hdf] at hcall
    exact next_event_filtered_not_dropped flt (App.gilrs_measure g) g rfl e g2 hcall
  · intro hev hraw
    have hpriv : App.next_event_priv g = (none, g) := by
      simp [App.next_event_priv, hev, hraw]
    rw [App.next_event, if_pos hdf, App.next_event_filtered]
    split
    next g2x h1 =>
      rw [hpriv] at h1
      injection h1 with ha hb
      rw [← hb]
    next evx g2x h1 =>
      rw [hpriv] at h1
      simp at h1

/-- C8 witness: a filter chain that drops every button event; on a context
holding one queued button event and one queued `Connected` event, the loop
skips the dropped event and returns the `Connected` event, and on an
exhausted context it returns `none`. -/
theorem c8_no_dropped_witness :
    App.Event.is_dropped ⟨0, .Connected, 1⟩ = false
      ∧ App.next_event
          (fun e _ => match e.event with
            | .ButtonPressed _ _ => ⟨e.id, .Dropped, e.time⟩
            | _ => e)
          ⟨[], 0, [⟨0, .ButtonPressed .South ⟨.Button, 0⟩, 0⟩, ⟨0, .Connected, 1⟩], [],
            true, 3 / 4, 13 / 20⟩
        = (some ⟨0, .Connected, 1⟩,
            ⟨[], 0, [], [], true, 3 / 4, 13 / 20⟩)
      ∧ App.next_event (fun e _ => e) ⟨[], 0, [], [], true, 3 / 4, 13 / 20⟩
          = (none, ⟨[], 0, [], [], true, 3 / 4, 13 / 20⟩) := by
  have h2 : App.next_event
      (fun e _ => match e.event with
        | .ButtonPressed _ _ => ⟨e.id, .Dropped, e.time⟩
        | _ => e)
      ⟨[], 0, [⟨0, .ButtonPressed .South ⟨.Button, 0⟩, 0⟩, ⟨0, .Connected, 1⟩], [],
        true, 3 / 4, 13 / 20⟩
      = (some ⟨0, .Connected, 1⟩, ⟨[], 0, [], [], true, 3 / 4, 13 / 20⟩) := by
    rw [App.next_event, if_pos rfl, App.next_event_filtered]
    simp only [App.next_event_priv]
    rw [App.next_event_filtered]
    simp [App.next_event_priv, App.Event.is_dropped]
  refine ⟨?_, h2, ?_⟩
  · exact (c8_no_dropped _ _ rfl).1 _ _ h2
  · exact (c8_no_dropped (fun e _ => e) _ rfl).2 rfl rfl
